import Mathlib

/-!
Verification of the risk-metrics core of `src/options_risk_tool.py`.

The Python source is shallowly embedded over `ℚ` (the script only ever
produces exact decimal fractions from its inputs, so rational arithmetic is
an exact model of the float expressions involved; the one non-finite float
value the script can produce, `float('inf')` in `calculate_risk_reward`, is
modelled by a dedicated constructor).  Python float division raises
`ZeroDivisionError` on a zero divisor, so every division of the source is
embedded through `pyDiv`, which returns `Except`.
-/

namespace OptionsTool

/-- Error raised by a Python division whose divisor is zero
(`ZeroDivisionError`; the spec calls it `DomainError (DivisionByZero)`). -/
inductive DomainError
  | divisionByZero
  deriving DecidableEq, Repr

/-- Python float division: raises on a zero divisor, otherwise exact. -/
def pyDiv (a b : ℚ) : Except DomainError ℚ :=
  if b = 0 then .error .divisionByZero else .ok (a / b)

/-- Result type of `calculate_risk_reward`: a finite rational or the Python
value `float('inf')`. -/
inductive RiskReward
  | val (q : ℚ)
  | inf
  deriving DecidableEq, Repr

/-- Embedding of `calculate_greeks` (src/options_risk_tool.py lines 12-19).  The Python
dict literal `{"Delta": delta, ..., "Rho": rho}` is embedded as the
association list of its entries in insertion order. -/
def calculate_greeks (option_type : String) (stock_price strike_price
    time_to_expiry volatility interest_rate : ℚ) : List (String × ℚ) :=
  let delta : ℚ := if option_type = "Call" then 0.5 else -0.5
  let gamma : ℚ := 0.1
  let theta : ℚ := -0.01 * time_to_expiry
  let vega : ℚ := 0.2 * volatility
  let rho : ℚ := 0.05 * interest_rate
  [("Delta", delta), ("Gamma", gamma), ("Theta", theta), ("Vega", vega),
   ("Rho", rho)]

/-- Embedding of `calculate_risk_reward` (src/options_risk_tool.py lines 22-27). -/
def calculate_risk_reward (entry_price target_price stop_loss_price : ℚ) :
    RiskReward :=
  if entry_price = 0 ∨ target_price - entry_price = 0 then .val 0
  else
    let risk := entry_price - stop_loss_price
    let reward := target_price - entry_price
    if 0 < risk then .val (reward / risk) else .inf

/-- Variant of `calculate_risk_reward` with the division embedded through `pyDiv`, so
that reaching a zero divisor would surface as `Except.error`: used to state
that the function is total (the division is guarded by `risk > 0`). -/
def calculate_risk_reward_checked (entry_price target_price
    stop_loss_price : ℚ) : Except DomainError RiskReward :=
  if entry_price = 0 ∨ target_price - entry_price = 0 then .ok (.val 0)
  else
    let risk := entry_price - stop_loss_price
    let reward := target_price - entry_price
    if 0 < risk then (pyDiv reward risk).map .val else .ok .inf

/-- Lines 55-56:
`max_risk = total_capital * risk_tolerance` and
`position_size = min(max_risk / (entry_price - stop_loss_price),
contracts * 100 * entry_price)`.  The division is a raising Python float
division, hence the `Except` result.  `contracts` comes from a Streamlit
integer input with `min_value=1`. -/
def position_size (total_capital risk_tolerance entry_price
    stop_loss_price : ℚ) (contracts : ℕ) : Except DomainError ℚ :=
  let max_risk := total_capital * risk_tolerance
  (pyDiv max_risk (entry_price - stop_loss_price)).map
    fun c => min c ((contracts : ℚ) * 100 * entry_price)

/-- The fields of the trade dict appended to `st.session_state.trade_history`
(lines 107-116), minus the generated `"Trade ID"`: asset, option type,
strike price, entry price, position size, risk-to-reward, and the
`datetime.now()` timestamp (modelled as a `ℕ` clock value supplied by the
run). -/
structure TradePayload where
  asset : String
  option_type : String
  strike_price : ℚ
  entry_price : ℚ
  position_size : ℚ
  risk_reward : RiskReward
  date : ℕ
  deriving DecidableEq, Repr

/-- A stored trade: the generated `"Trade ID"` together with the payload. -/
structure TradeRecord where
  tradeId : ℕ
  payload : TradePayload
  deriving DecidableEq, Repr

/-- The session-state trade history (`st.session_state.trade_history`, a
Python list), together with the state of the identifier supply. -/
structure Ledger where
  nextId : ℕ
  trade_history : List TradeRecord
  deriving DecidableEq, Repr

/-- Line 104-105: the history is initialised to the empty list `[]`. -/
def Ledger.init : Ledger := ⟨0, []⟩

/-- Lines 106-117: `st.session_state.trade_history.append(trade)` with
`trade["Trade ID"] = str(uuid.uuid4())`.  Modelled from the spec: the
source generates the identifier with `uuid.uuid4()` (a library call, outside
the repository); the spec reduces it to its contract — "generates a fresh
globally-unique identifier ... distinct from every previously issued
identifier" — which is modelled as a monotone counter supply. -/
def Ledger.append (L : Ledger) (p : TradePayload) : Ledger :=
  ⟨L.nextId + 1, L.trade_history ++ [⟨L.nextId, p⟩]⟩

/-- Lines 122-124: the display of the history simply reads the whole list
`st.session_state.trade_history` in order. -/
def Ledger.listRecords (L : Ledger) : List TradeRecord := L.trade_history

/-- Running a sequence of appends, oldest payload first. -/
def appendAll (L : Ledger) (ps : List TradePayload) : Ledger :=
  ps.foldl Ledger.append L

/-- The records that a run of appends starting at identifier `n` creates. -/
def mkRecords : ℕ → List TradePayload → List TradeRecord
  | _, [] => []
  | n, p :: ps => ⟨n, p⟩ :: mkRecords (n + 1) ps

/-- The validated inputs the Streamlit sidebar supplies to one run of the
script (lines 34-52), after the percent-to-fraction divisions. -/
structure TradeInputs where
  option_type : String
  underlying_asset : String
  stock_price : ℚ
  strike_price : ℚ
  time_to_expiry : ℚ
  volatility : ℚ
  interest_rate : ℚ
  entry_price : ℚ
  contracts : ℕ
  stop_loss_price : ℚ
  take_profit_price : ℚ
  total_capital : ℚ
  risk_tolerance : ℚ
  deriving DecidableEq, Repr

/-- The numeric outputs one evaluation cycle computes and renders
(lines 55-75): Greeks, risk-to-reward ratio, position size, max risk,
time to expiry. -/
structure RiskReport where
  greeks : List (String × ℚ)
  risk_reward_ratio : RiskReward
  position_size : ℚ
  max_risk : ℚ
  time_to_expiry : ℚ
  deriving DecidableEq, Repr

/-- One run of the script body over the core state (lines 55-118): compute
`position_size` (which is the first raising division, at line 56), the
Greeks and the risk-reward ratio, then, when the "Save Trade" button was
pressed, append the trade snapshot to the history.  The display sections
only read the computed values. -/
def runScript (i : TradeInputs) (L : Ledger) (save : Bool) (now : ℕ) :
    Except DomainError (RiskReport × Ledger) := do
  let ps ← position_size i.total_capital i.risk_tolerance i.entry_price
    i.stop_loss_price i.contracts
  let g := calculate_greeks i.option_type i.stock_price i.strike_price
    i.time_to_expiry i.volatility i.interest_rate
  let rr := calculate_risk_reward i.entry_price i.take_profit_price
    i.stop_loss_price
  let report : RiskReport :=
    ⟨g, rr, ps, i.total_capital * i.risk_tolerance, i.time_to_expiry⟩
  let L' := if save then
      L.append ⟨i.underlying_asset, i.option_type, i.strike_price,
        i.entry_price, ps, rr, now⟩
    else L
  return (report, L')

/-! ## Helper lemmas -/

theorem position_size_ok (tc rt e s : ℚ) (c : ℕ) (h : e - s ≠ 0) :
    position_size tc rt e s c =
      .ok (min (tc * rt / (e - s)) ((c : ℚ) * 100 * e)) := by
  simp [position_size, pyDiv, h, Except.map]

theorem calculate_risk_reward_pos (e t s : ℚ) (h1 : ¬(e = 0 ∨ t - e = 0))
    (h3 : 0 < e - s) :
    calculate_risk_reward e t s = .val ((t - e) / (e - s)) := by
  unfold calculate_risk_reward
  rw [if_neg h1]
  simp only [if_pos h3]

/-! ## Theorems -/

/-- C1: `calculate_risk_reward` returns 0 when the entry price is zero or the
reward `targetPrice - entryPrice` is zero; otherwise it returns
`reward / risk` when `risk = entryPrice - stopLossPrice` is positive and
`+infinity` when the risk is non-positive; and the zero guard takes
precedence, so zero reward together with non-positive risk yields 0, not
infinity. -/
theorem riskReward_cases (e t s : ℚ) :
    (e = 0 ∨ t - e = 0 → calculate_risk_reward e t s = .val 0) ∧
    (e ≠ 0 → t - e ≠ 0 → 0 < e - s →
      calculate_risk_reward e t s = .val ((t - e) / (e - s))) ∧
    (e ≠ 0 → t - e ≠ 0 → e - s ≤ 0 → calculate_risk_reward e t s = .inf) ∧
    (t - e = 0 → e - s ≤ 0 → calculate_risk_reward e t s = .val 0) := by
  refine ⟨fun h => ?_, fun h1 h2 h3 =>
    calculate_risk_reward_pos e t s (by tauto) h3, fun h1 h2 h3 => ?_,
    fun h1 _ => ?_⟩ <;> unfold calculate_risk_reward
  · rw [if_pos h]
  · rw [if_neg (by tauto)]
    simp only [if_neg (not_lt.mpr h3)]
  · rw [if_pos (Or.inr h1)]

/-- Witness for C1 at the spec's own worked examples:
`calculate_risk_reward 5 8 3 = (8-5)/(5-3) = 1.5`,
`calculate_risk_reward 5 8 6 = +infinity`, and the tie-break case
`calculate_risk_reward 5 5 6 = 0`. -/
theorem riskReward_cases_witness :
    calculate_risk_reward 5 8 3 = RiskReward.val ((8 - 5) / (5 - 3)) ∧
    calculate_risk_reward 5 8 6 = RiskReward.inf ∧
    calculate_risk_reward 5 5 6 = RiskReward.val 0 :=
  ⟨(riskReward_cases 5 8 3).2.1 (by norm_num) (by norm_num) (by norm_num),
   (riskReward_cases 5 8 6).2.2.1 (by norm_num) (by norm_num) (by norm_num),
   (riskReward_cases 5 5 6).2.2.2 (by norm_num) (by norm_num)⟩

/-- C3: when `entryPrice = stopLossPrice`, `position_size` surfaces the
division-by-zero error to the caller — it neither returns `NaN` nor silently
returns 0 (the result is `Except.error`, not any `Except.ok` value). -/
theorem positionSize_divZero (tc rt e : ℚ) (c : ℕ) :
    position_size tc rt e e c = .error .divisionByZero := by
  simp [position_size, pyDiv, Except.map]

/-- C4: `calculate_greeks` returns the mapping with exactly the five keys
`Delta, Gamma, Theta, Vega, Rho` in that order, where `Delta` is `0.5` for a
`"Call"` and `-0.5` otherwise, `Gamma = 0.1`,
`Theta = -0.01 * timeToExpiry`, `Vega = 0.2 * volatility`, and
`Rho = 0.05 * interestRate`. -/
theorem greeks_formula (ot : String) (sp kp t v r : ℚ) :
    calculate_greeks ot sp kp t v r =
      [("Delta", if ot = "Call" then (0.5 : ℚ) else -0.5), ("Gamma", 0.1),
       ("Theta", -0.01 * t), ("Vega", 0.2 * v), ("Rho", 0.05 * r)] ∧
    (calculate_greeks ot sp kp t v r).map Prod.fst =
      ["Delta", "Gamma", "Theta", "Vega", "Rho"] :=
  ⟨rfl, rfl⟩

/-- C10: the Greeks are independent of `stockPrice` and `strikePrice`: two
calls agreeing on all other arguments return equal mappings. -/
theorem greeks_indep_prices (ot : String) (sp₁ kp₁ sp₂ kp₂ t v r : ℚ) :
    calculate_greeks ot sp₁ kp₁ t v r = calculate_greeks ot sp₂ kp₂ t v r :=
  rfl

/-- C2: whenever `entryPrice ≠ stopLossPrice`, `position_size` returns
`min(totalCapital * riskTolerance / (entryPrice - stopLossPrice),
contracts * 100 * entryPrice)`. -/
theorem positionSize_min (tc rt e s : ℚ) (c : ℕ) (h : e ≠ s) :
    position_size tc rt e s c =
      .ok (min (tc * rt / (e - s)) ((c : ℚ) * 100 * e)) :=
  position_size_ok tc rt e s c (sub_ne_zero.mpr h)

/-- Witness for C2 at the spec's worked example:
`position_size 10000 0.01 5 3 1 = min(100 / 2, 1 * 100 * 5) = 50`. -/
theorem positionSize_min_witness :
    (5 : ℚ) ≠ 3 ∧ position_size 10000 0.01 5 3 1 = .ok 50 := by
  refine ⟨by norm_num, ?_⟩
  rw [positionSize_min 10000 0.01 5 3 1 (by norm_num)]
  norm_num [min_def]

/-- C6: the two calculators are total: over every rational input
`calculate_risk_reward` reaches its division only with a strictly positive
divisor, so its `pyDiv`-checked version never surfaces an error and agrees
with the plain value, and `calculate_greeks` always returns its five-entry
mapping. -/
theorem calculators_total :
    (∀ e t s : ℚ, calculate_risk_reward_checked e t s =
      Except.ok (calculate_risk_reward e t s)) ∧
    (∀ (ot : String) (sp kp t v r : ℚ),
      (calculate_greeks ot sp kp t v r).length = 5) := by
  refine ⟨fun e t s => ?_, fun ot sp kp t v r => rfl⟩
  unfold calculate_risk_reward_checked calculate_risk_reward
  split
  · rfl
  · simp only
    split
    · rename_i hrisk
      simp [pyDiv, ne_of_gt hrisk, Except.map]
    · rfl

/-- C8: with positive capital and risk tolerance and a stop-loss strictly
above a non-negative entry price, `position_size` returns a value (no
error, no clamping to zero), and that value is strictly negative: the
negative risk-based capacity is selected by `min`. -/
theorem positionSize_negative (tc rt e s : ℚ) (c : ℕ) (htc : 0 < tc)
    (hrt : 0 < rt) (he : 0 ≤ e) (hes : e < s) :
    position_size tc rt e s c =
      .ok (min (tc * rt / (e - s)) ((c : ℚ) * 100 * e)) ∧
    min (tc * rt / (e - s)) ((c : ℚ) * 100 * e) < 0 := by
  refine ⟨position_size_ok tc rt e s c (sub_ne_zero.mpr (ne_of_lt hes)), ?_⟩
  have hdiv : tc * rt / (e - s) < 0 :=
    div_neg_of_pos_of_neg (mul_pos htc hrt) (by linarith)
  exact lt_of_le_of_lt (min_le_left _ _) hdiv

/-- Witness for C8: `position_size 10000 0.01 3 5 1` succeeds with the
strictly negative value `min(100 / (3 - 5), 300) = -50`. -/
theorem positionSize_negative_witness :
    (0 : ℚ) < 10000 ∧ (0 : ℚ) < 0.01 ∧ (0 : ℚ) ≤ 3 ∧ (3 : ℚ) < 5 ∧
    (position_size 10000 0.01 3 5 1 =
      .ok (min ((10000 : ℚ) * 0.01 / (3 - 5)) (((1 : ℕ) : ℚ) * 100 * 3)) ∧
     min ((10000 : ℚ) * 0.01 / (3 - 5)) (((1 : ℕ) : ℚ) * 100 * 3) < 0) :=
  ⟨by norm_num, by norm_num, by norm_num, by norm_num,
   positionSize_negative 10000 0.01 3 5 1 (by norm_num) (by norm_num)
     (by norm_num) (by norm_num)⟩

/-- C9: when `entryPrice > 0`, `targetPrice < entryPrice` and
`stopLossPrice < entryPrice`, `calculate_risk_reward` returns the strictly
negative finite ratio `(targetPrice - entryPrice) / (entryPrice -
stopLossPrice)`; the result is not clamped to be non-negative. -/
theorem riskReward_negative (e t s : ℚ) (he : 0 < e) (ht : t < e)
    (hs : s < e) :
    calculate_risk_reward e t s = .val ((t - e) / (e - s)) ∧
    (t - e) / (e - s) < 0 := by
  constructor
  · refine calculate_risk_reward_pos e t s ?_ (by linarith)
    push_neg
    exact ⟨ne_of_gt he, by linarith⟩
  · exact div_neg_of_neg_of_pos (by linarith) (by linarith)

/-- Witness for C9: `calculate_risk_reward 5 3 4 = (3 - 5)/(5 - 4) = -2`,
which is strictly negative. -/
theorem riskReward_negative_witness :
    (0 : ℚ) < 5 ∧ (3 : ℚ) < 5 ∧ (4 : ℚ) < 5 ∧
    (calculate_risk_reward 5 3 4 = RiskReward.val ((3 - 5) / (5 - 4)) ∧
     ((3 : ℚ) - 5) / (5 - 4) < 0) :=
  ⟨by norm_num, by norm_num, by norm_num,
   riskReward_negative 5 3 4 (by norm_num) (by norm_num) (by norm_num)⟩

/-! ## Ledger lemmas -/

theorem appendAll_eq (L : Ledger) (ps : List TradePayload) :
    appendAll L ps =
      ⟨L.nextId + ps.length, L.trade_history ++ mkRecords L.nextId ps⟩ := by
  induction ps generalizing L with
  | nil => simp [appendAll, mkRecords]
  | cons p ps ih =>
    show appendAll (L.append p) ps = _
    rw [ih]
    simp only [Ledger.append, mkRecords, List.append_assoc,
      List.singleton_append, List.length_cons, Ledger.mk.injEq]
    exact ⟨by omega, trivial⟩

theorem mkRecords_map_payload (n : ℕ) (ps : List TradePayload) :
    (mkRecords n ps).map TradeRecord.payload = ps := by
  induction ps generalizing n with
  | nil => rfl
  | cons p ps ih => simp [mkRecords, ih]

theorem mkRecords_map_id (n : ℕ) (ps : List TradePayload) :
    (mkRecords n ps).map TradeRecord.tradeId = List.range' n ps.length := by
  induction ps generalizing n with
  | nil => rfl
  | cons p ps ih => simp [mkRecords, List.range'_succ, ih]

/-- C5: the trade history starts empty; after any sequence of `N` appends
the listing returns exactly the `N` appended payloads, oldest first, with
pairwise-distinct identifiers; an `append` only adds at the tail, leaving
every stored record in place; and listing is a pure read, so two listings
of the same state are equal. -/
theorem ledger_append_list :
    Ledger.init.listRecords = [] ∧
    (∀ ps : List TradePayload,
      ((appendAll Ledger.init ps).listRecords).map TradeRecord.payload = ps ∧
      ((appendAll Ledger.init ps).listRecords).length = ps.length ∧
      (((appendAll Ledger.init ps).listRecords).map
        TradeRecord.tradeId).Nodup) ∧
    (∀ (L : Ledger) (p : TradePayload),
      (L.append p).listRecords = L.listRecords ++ [⟨L.nextId, p⟩]) ∧
    (∀ L : Ledger, L.listRecords = L.listRecords) := by
  refine ⟨rfl, fun ps => ?_, fun L p => rfl, fun L => rfl⟩
  have h : (appendAll Ledger.init ps).listRecords = mkRecords 0 ps := by
    rw [Ledger.listRecords, appendAll_eq]
    simp [Ledger.init]
  refine ⟨by rw [h, mkRecords_map_payload], ?_, ?_⟩
  · have := congrArg List.length (mkRecords_map_payload 0 ps)
    simpa [h] using this
  · rw [h, mkRecords_map_id]
    exact List.nodup_range' _ _

/-- C7: one evaluation cycle is deterministic and stateless: the computed
`RiskReport` depends only on the `TradeInputs` — two runs with identical
inputs yield identical reports whatever the ledger contents, save flags and
clock values are — and a run without a save leaves the ledger unchanged. -/
theorem evaluate_deterministic :
    (∀ (i : TradeInputs) (L₁ L₂ : Ledger) (b₁ b₂ : Bool) (n₁ n₂ : ℕ),
      (runScript i L₁ b₁ n₁).map Prod.fst =
        (runScript i L₂ b₂ n₂).map Prod.fst) ∧
    (∀ (i : TradeInputs) (L : Ledger) (n : ℕ) (r : RiskReport)
      (L' : Ledger), runScript i L false n = Except.ok (r, L') → L' = L) := by
  constructor
  · intro i L₁ L₂ b₁ b₂ n₁ n₂
    unfold runScript
    cases position_size i.total_capital i.risk_tolerance i.entry_price
      i.stop_loss_price i.contracts <;> rfl
  · intro i L n r L' hrun
    unfold runScript at hrun
    cases hps : position_size i.total_capital i.risk_tolerance i.entry_price
      i.stop_loss_price i.contracts <;> rw [hps] at hrun
    · exact absurd hrun (by simp [Except.bind])
    · exact (congrArg Prod.snd (Except.ok.inj hrun)).symm

/-- The default sidebar configuration of the script: a Call on SPY at the
default prices, 20% volatility, 5% rate, one year to expiry, entry 5,
stop-loss 3, take-profit 8, one contract, 10000 capital, 1% risk
tolerance. -/
def sampleInputs : TradeInputs :=
  ⟨"Call", "SPY", 100, 100, 1, 0.2, 0.05, 5, 1, 3, 8, 10000, 0.01⟩

/-- The report the script computes for `sampleInputs`. -/
def sampleReport : RiskReport :=
  ⟨[("Delta", 0.5), ("Gamma", 0.1), ("Theta", -0.01), ("Vega", 0.04),
    ("Rho", 0.0025)], .val 1.5, 50, 100, 1⟩

/-- Witness for C7: running the script on `sampleInputs` over the empty
ledger without saving succeeds and leaves the ledger unchanged. -/
theorem evaluate_deterministic_witness :
    runScript sampleInputs Ledger.init false 0 =
      Except.ok (sampleReport, Ledger.init) ∧ Ledger.init = Ledger.init := by
  have hrun : runScript sampleInputs Ledger.init false 0 =
      Except.ok (sampleReport, Ledger.init) := by
    unfold runScript position_size pyDiv
    norm_num [sampleInputs, sampleReport, calculate_greeks,
      calculate_risk_reward, Except.map, Except.bind, Except.instMonad,
      min_def, Ledger.init, pure, Except.pure]
  exact ⟨hrun, evaluate_deterministic.2 sampleInputs Ledger.init 0
    sampleReport Ledger.init hrun⟩

end OptionsTool
